import Mathlib

/-!
Shallow embedding of `src/universal_transcoder.py`.

The program decides, per input file, whether to remux or transcode it into a
target container, and builds the corresponding ffmpeg argument list.  We embed
the pure decision logic:

* `container_allows_codecs`  — the container/codec compatibility table;
* `default_container_flags`  — container-specific finalization flags;
* `build_ffmpeg_cmd`         — the command builder (argument list);
* `resolve_policy`           — the quality-preset resolution block of `main`
  (lines 287-340 of the source), which chooses the effective mode and the
  resolved codec/CRF/preset/audio-bitrate values.

Python `Optional[str]` parameters are `Option String`; Python truthiness on
strings (`if s:`) is `truthy`, which is false exactly on `None` and `""`.
Python `x or d` on an optional string is `py_or`.
-/

namespace UniversalTranscoder

/-- ASCII lower-casing of one character, the part of Python `str.lower()`
exercised by this program (container extensions and codec names are ASCII). -/
def asciiLower (c : Char) : Char :=
  match c with
  | 'A' => 'a' | 'B' => 'b' | 'C' => 'c' | 'D' => 'd' | 'E' => 'e' | 'F' => 'f'
  | 'G' => 'g' | 'H' => 'h' | 'I' => 'i' | 'J' => 'j' | 'K' => 'k' | 'L' => 'l'
  | 'M' => 'm' | 'N' => 'n' | 'O' => 'o' | 'P' => 'p' | 'Q' => 'q' | 'R' => 'r'
  | 'S' => 's' | 'T' => 't' | 'U' => 'u' | 'V' => 'v' | 'W' => 'w' | 'X' => 'x'
  | 'Y' => 'y' | 'Z' => 'z' | c => c

/-- Python `s.lower()` (ASCII range). -/
def strLower (s : String) : String := ⟨s.data.map asciiLower⟩

/-- Python `s.split(sep)` for a one-character separator, on a character list:
`"" ↦ [""]`, separators delimit possibly-empty fields. -/
def splitOnChar (sep : Char) : List Char → List (List Char)
  | [] => [[]]
  | c :: rest =>
    let r := splitOnChar sep rest
    if c == sep then [] :: r
    else
      match r with
      | h :: t => (c :: h) :: t
      | [] => [[c]]

/-- Python `s.replace(pat, rep)` for a one-character pattern: every occurrence
of `pat` is substituted by `rep`. -/
def replaceChar (pat : Char) (rep : List Char) : List Char → List Char
  | [] => []
  | c :: rest => (if c == pat then rep else [c]) ++ replaceChar pat rep rest

/-- Python `sep.join(parts)` for `sep = ","`. -/
def joinComma : List String → String
  | [] => ""
  | [x] => x
  | x :: xs => x ++ "," ++ joinComma xs

/-- Python truthiness of an optional string: `None` and `""` are falsy. -/
def truthy : Option String → Bool
  | none => false
  | some s => !(s == "")

/-- Python `x or d` for `x : Optional[str]`, `d : str`: keep `x` when truthy. -/
def py_or (x : Option String) (d : String) : String :=
  match x with
  | none => d
  | some s => if s == "" then d else s

/-- `(s or "")` for an optional string. -/
def orEmpty : Option String → String
  | none => ""
  | some s => s

/-- Embeds `container_allows_codecs(container, vcodec, acodec)` (source lines
86-117): the conservative container/codec compatibility table. -/
def container_allows_codecs (container : String) (vcodec acodec : Option String) : Bool :=
  let c := strLower container
  let v := strLower (orEmpty vcodec)
  let a := strLower (orEmpty acodec)
  if c == "mkv" then
    true
  else if c == "mp4" || c == "m4v" || c == "mov" then
    (["h264", "hevc", "mpeg4"].contains v) &&
      (["aac", "mp3", "ac3", "eac3"].contains a || a == "")
  else if c == "webm" then
    (["vp8", "vp9"].contains v) && (["vorbis", "opus"].contains a)
  else if c == "mpg" || c == "mpeg" || c == "ts" || c == "m2ts" then
    (["mpeg1video", "mpeg2video"].contains v) && (["mp2", "mp1", "ac3"].contains a)
  else if c == "avi" then
    (["mpeg4", "msmpeg4v3", "h263", "h264"].contains v) &&
      (["mp3", "ac3", "aac"].contains a)
  else
    false

/-- The container names `container_allows_codecs` treats specially; every other
(lower-cased) container falls through to `False`. -/
def KNOWN_CONTAINERS : List String :=
  ["mkv", "mp4", "m4v", "mov", "webm", "mpg", "mpeg", "ts", "m2ts", "avi"]

/-- Embeds `default_container_flags(container)` (source lines 119-124). -/
def default_container_flags (container : String) : List String :=
  let c := strLower container
  if c == "mp4" || c == "m4v" || c == "mov" then
    ["-movflags", "+faststart", "-pix_fmt", "yuv420p"]
  else
    []

/-- `Path(p).suffix` of Python's pathlib for a POSIX path string: the extension
(with leading dot) of the final path component, `""` when the final component
has no dot past position 0 or ends in a dot. -/
def path_suffix (p : String) : String :=
  let name := (splitOnChar '/' p.data).getLastD []
  let parts := splitOnChar '.' name
  if parts.length ≥ 2 then
    let last := parts.getLastD []
    if last.isEmpty then ""
    else if parts.length == 2 && (parts.headD []).isEmpty then ""
    else ⟨'.' :: last⟩
  else ""

/-- `dst.suffix.lstrip(".").lower()` as used by `build_ffmpeg_cmd`. -/
def out_container (dst : String) : String :=
  strLower ⟨(path_suffix dst).data.dropWhile (fun c => c == '.')⟩

/-- The leading part of every built command (source lines 160-161):
`["ffmpeg", "-hide_banner", "-loglevel", "info", "-y"/"-n", "-i", src]`. -/
def cmd_base (overwrite : Bool) (src : String) : List String :=
  ["ffmpeg", "-hide_banner", "-loglevel", "info",
   if overwrite then "-y" else "-n", "-i", src]

/-- Escaping of the burned-subtitle path (source line 172):
`str(burn_subs).replace("\\", "\\\\").replace(":", r"\:")`. -/
def escape_subs_path (p : String) : String :=
  ⟨replaceChar ':' ['\\', ':'] (replaceChar '\\' ['\\', '\\'] p.data)⟩

/-- The video filter chain `vf_chain` (source lines 163-173): deinterlace,
then scale, then the user filter string, then subtitle burn-in. -/
def vf_chain (scale : Option String) (deint : Bool) (extra_filters : Option String)
    (burn_subs : Option String) : List String :=
  (if deint then ["yadif"] else []) ++
  (if truthy scale then ["scale=" ++ orEmpty scale] else []) ++
  (if truthy extra_filters then [orEmpty extra_filters] else []) ++
  (match burn_subs with
   | some p => ["subtitles=\x27" ++ escape_subs_path p ++ "\x27"]
   | none => [])

/-- Subtitle stream handling (source lines 175-178): `-sn` drops subtitles,
otherwise `-c:s copy` copies them, otherwise nothing. -/
def subtitle_args (copy_subs no_subs : Bool) : List String :=
  if no_subs then ["-sn"]
  else if copy_subs then ["-c:s", "copy"]
  else []

/-- The video codec set for which the builder emits `-crf`/`-preset`
(source line 188). -/
def CRF_CODECS : List String := ["libx264", "libx265", "h264_nvenc", "hevc_nvenc"]

/-- `vcodec in {"libx264", "libx265", "h264_nvenc", "hevc_nvenc"}`. -/
def in_crf_set : Option String → Bool
  | none => false
  | some v => CRF_CODECS.contains v

/-- The video arguments of the transcode branch (source lines 186-198). -/
def video_args (vcodec crf preset video_bitrate maxrate bufsize : Option String) :
    List String :=
  if truthy vcodec then
    ["-c:v", orEmpty vcodec] ++
    (if in_crf_set vcodec then
       (if truthy crf && !truthy video_bitrate then ["-crf", orEmpty crf] else []) ++
       (if truthy preset then ["-preset", orEmpty preset] else [])
     else []) ++
    (if truthy video_bitrate then ["-b:v", orEmpty video_bitrate] else []) ++
    (if truthy maxrate then ["-maxrate", orEmpty maxrate] else []) ++
    (if truthy bufsize then ["-bufsize", orEmpty bufsize] else [])
  else []

/-- The audio arguments of the transcode branch (source lines 200-203). -/
def audio_args (acodec audio_bitrate : Option String) : List String :=
  if truthy acodec then
    ["-c:a", orEmpty acodec] ++
    (if truthy audio_bitrate && !(orEmpty acodec == "copy")
     then ["-b:a", orEmpty audio_bitrate] else [])
  else []

/-- `-threads n` when `threads` is truthy (source lines 210-211); Python
treats `0` as falsy. -/
def thread_args (threads : Option Int) : List String :=
  match threads with
  | some t => if t == 0 then [] else ["-threads", toString t]
  | none => []

/-- Embeds `build_ffmpeg_cmd` (source lines 139-214).  Paths are strings;
`vcodec`/`acodec` are optional because `main` passes possibly-`None` values
(custom quality), and the builder only tests their truthiness. -/
def build_ffmpeg_cmd (src dst mode : String) (vcodec acodec : Option String)
    (crf preset video_bitrate maxrate bufsize audio_bitrate scale : Option String)
    (deint : Bool) (extra_filters : Option String) (copy_subs no_subs : Bool)
    (burn_subs : Option String) (threads : Option Int) (overwrite : Bool) :
    List String :=
  let base := cmd_base overwrite src ++ subtitle_args copy_subs no_subs
  if mode == "remux" then
    base ++ ["-c", "copy"] ++ default_container_flags (out_container dst) ++ [dst]
  else
    let chain := vf_chain scale deint extra_filters burn_subs
    base ++
    video_args vcodec crf preset video_bitrate maxrate bufsize ++
    audio_args acodec audio_bitrate ++
    (if chain.isEmpty then [] else ["-vf", joinComma chain]) ++
    default_container_flags (out_container dst) ++
    thread_args threads ++
    [dst]

/-- `VCODEC_DEFAULTS.get(out_ext, "libx264")` (source line 275). -/
def VCODEC_DEFAULTS_get (ext : String) : String :=
  if ext == "mp4" then "libx264"
  else if ext == "mkv" then "libx264"
  else if ext == "webm" then "libvpx-vp9"
  else if ext == "avi" then "libx264"
  else if ext == "ts" then "libx264"
  else if ext == "mpg" then "libx264"
  else "libx264"

/-- `ACODEC_DEFAULTS.get(out_ext, "aac")` (source line 276). -/
def ACODEC_DEFAULTS_get (ext : String) : String :=
  if ext == "mp4" then "aac"
  else if ext == "mkv" then "aac"
  else if ext == "webm" then "libopus"
  else if ext == "avi" then "aac"
  else if ext == "ts" then "aac"
  else if ext == "mpg" then "aac"
  else "aac"

/-- The per-file resolution produced by `main`'s quality-preset block
(source lines 287-340). -/
structure Resolved where
  effective_mode : String
  vcodec_use : Option String
  acodec_use : Option String
  crf_use : Option String
  preset_use : Option String
  abr_use : Option String
deriving DecidableEq

/-- Embeds `main`'s quality-preset decision block (source lines 287-340):
starting from the user-supplied `--vcodec`, `--acodec`, `--crf`, `--preset`
and `--audio-bitrate` values, each quality preset fills in its defaults via Python `or`; `custom`
takes the mode verbatim from `--mode` and leaves every value as supplied. -/
def resolve_policy (quality mode_arg out_ext : String)
    (vcodec_arg acodec_arg crf_arg preset_arg abr_arg : Option String)
    (probed_v probed_a : Option String) : Resolved :=
  if quality == "auto" then
    if container_allows_codecs out_ext probed_v probed_a then
      ⟨"remux", vcodec_arg, acodec_arg, crf_arg, preset_arg, abr_arg⟩
    else
      ⟨"transcode",
        some (py_or vcodec_arg (VCODEC_DEFAULTS_get out_ext)),
        some (py_or acodec_arg (ACODEC_DEFAULTS_get out_ext)),
        some (py_or crf_arg "20"), some (py_or preset_arg "fast"),
        some (py_or abr_arg "192k")⟩
  else if quality == "ultra" then
    ⟨"transcode",
      some (py_or vcodec_arg (VCODEC_DEFAULTS_get out_ext)),
      some (py_or acodec_arg (ACODEC_DEFAULTS_get out_ext)),
      some (py_or crf_arg "18"), some (py_or preset_arg "slow"),
      some (py_or abr_arg "320k")⟩
  else if quality == "high" then
    ⟨"transcode",
      some (py_or vcodec_arg (VCODEC_DEFAULTS_get out_ext)),
      some (py_or acodec_arg (ACODEC_DEFAULTS_get out_ext)),
      some (py_or crf_arg "19"), some (py_or preset_arg "medium"),
      some (py_or abr_arg "256k")⟩
  else if quality == "balanced" then
    ⟨"transcode",
      some (py_or vcodec_arg (VCODEC_DEFAULTS_get out_ext)),
      some (py_or acodec_arg (ACODEC_DEFAULTS_get out_ext)),
      some (py_or crf_arg "21"), some (py_or preset_arg "fast"),
      some (py_or abr_arg "192k")⟩
  else if quality == "fast" then
    ⟨"transcode",
      some (py_or vcodec_arg (VCODEC_DEFAULTS_get out_ext)),
      some (py_or acodec_arg (ACODEC_DEFAULTS_get out_ext)),
      some (py_or crf_arg "23"), some (py_or preset_arg "veryfast"),
      some (py_or abr_arg "160k")⟩
  else
    ⟨mode_arg, vcodec_arg, acodec_arg, crf_arg, preset_arg, abr_arg⟩


/-! ## Theorems about the claims -/

/-- C9: for the Matroska-family container, `container_allows_codecs` returns
`true` for every pair of video and audio codec values, including absent
codecs. -/
theorem mkv_always_compatible (vcodec acodec : Option String) :
    container_allows_codecs "mkv" vcodec acodec = true := by
  rfl

/-- C8: for every container string whose (lower-cased) name is not in the known
set (mkv, mp4/m4v/mov, webm, mpg/mpeg/ts/m2ts, avi) and every pair of video and
audio codec values, `container_allows_codecs` returns `false`, forcing
transcode. -/
theorem unknown_container_incompatible (container : String) (vcodec acodec : Option String)
    (h : strLower container ∉ KNOWN_CONTAINERS) :
    container_allows_codecs container vcodec acodec = false := by
  simp only [KNOWN_CONTAINERS, List.mem_cons, List.not_mem_nil, or_false, not_or] at h
  obtain ⟨h1, h2, h3, h4, h5, h6, h7, h8, h9, h10⟩ := h
  unfold container_allows_codecs
  simp [h1, h2, h3, h4, h5, h6, h7, h8, h9, h10]

/-- Closed witness for `unknown_container_incompatible` at container `"flv"`. -/
theorem unknown_container_incompatible_witness :
    strLower "flv" ∉ KNOWN_CONTAINERS ∧
      container_allows_codecs "flv" (some "h264") (some "aac") = false :=
  ⟨by decide, unknown_container_incompatible "flv" (some "h264") (some "aac") (by decide)⟩


/-- C6: `container_allows_codecs` tolerates an absent audio codec for the MP4
family (mp4/m4v/mov return `true` when audio is absent and the video codec is
acceptable) but not for webm, the MPEG/TS family, or avi (those return `false`
when audio is absent, regardless of video codec). -/
theorem absent_audio_mp4_family_only :
    (∀ c ∈ ["mp4", "m4v", "mov"], ∀ v : Option String,
       strLower (orEmpty v) ∈ ["h264", "hevc", "mpeg4"] →
       container_allows_codecs c v none = true) ∧
    (∀ c ∈ ["webm", "mpg", "mpeg", "ts", "m2ts", "avi"], ∀ v : Option String,
       container_allows_codecs c v none = false) := by
  constructor
  · intro c hc v hv
    have hvb : List.contains ["h264", "hevc", "mpeg4"] (strLower (orEmpty v)) = true :=
      List.elem_iff.mpr hv
    simp only [List.mem_cons, List.not_mem_nil, or_false] at hc
    rcases hc with rfl | rfl | rfl <;>
    · show (List.contains ["h264", "hevc", "mpeg4"] (strLower (orEmpty v)) && true) = true
      rw [hvb]
      rfl
  · intro c hc v
    simp only [List.mem_cons, List.not_mem_nil, or_false] at hc
    rcases hc with rfl | rfl | rfl | rfl | rfl | rfl
    · show (List.contains ["vp8", "vp9"] (strLower (orEmpty v)) && false) = false
      exact Bool.and_false _
    · show (List.contains ["mpeg1video", "mpeg2video"] (strLower (orEmpty v)) && false) = false
      exact Bool.and_false _
    · show (List.contains ["mpeg1video", "mpeg2video"] (strLower (orEmpty v)) && false) = false
      exact Bool.and_false _
    · show (List.contains ["mpeg1video", "mpeg2video"] (strLower (orEmpty v)) && false) = false
      exact Bool.and_false _
    · show (List.contains ["mpeg1video", "mpeg2video"] (strLower (orEmpty v)) && false) = false
      exact Bool.and_false _
    · show (List.contains ["mpeg4", "msmpeg4v3", "h263", "h264"] (strLower (orEmpty v)) && false) = false
      exact Bool.and_false _

/-- Closed witness for `absent_audio_mp4_family_only`: mp4 accepts h264 video
with absent audio; webm rejects absent audio even with acceptable video. -/
theorem absent_audio_mp4_family_only_witness :
    container_allows_codecs "mp4" (some "h264") none = true ∧
      container_allows_codecs "webm" (some "vp9") none = false :=
  ⟨absent_audio_mp4_family_only.1 "mp4" (by decide) (some "h264") (by decide),
   absent_audio_mp4_family_only.2 "webm" (by decide) (some "vp9")⟩

/-- C5: for quality preset "ultra" with no user overrides the resolved
(CRF, encoder preset, audio bitrate) triple is `(18, "slow", "320k")`, and a
user-supplied CRF overrides only CRF, leaving preset and audio bitrate at the
tier defaults. -/
theorem ultra_defaults_and_independent_override (mode_arg out_ext : String)
    (probed_v probed_a : Option String) (c : String) (hc : c ≠ "") :
    (let r := resolve_policy "ultra" mode_arg out_ext none none none none none probed_v probed_a
     r.effective_mode = "transcode" ∧ r.crf_use = some "18" ∧
       r.preset_use = some "slow" ∧ r.abr_use = some "320k") ∧
    (let r := resolve_policy "ultra" mode_arg out_ext none none (some c) none none probed_v probed_a
     r.crf_use = some c ∧ r.preset_use = some "slow" ∧ r.abr_use = some "320k") := by
  refine ⟨⟨rfl, rfl, rfl, rfl⟩, ?_, rfl, rfl⟩
  simp [resolve_policy, py_or, hc]

/-- Closed witness for `ultra_defaults_and_independent_override` with an
explicit CRF of "16". -/
theorem ultra_defaults_and_independent_override_witness :
    "16" ≠ "" ∧
    ((let r := resolve_policy "ultra" "auto" "mp4" none none none none none (some "h264") (some "aac")
      r.effective_mode = "transcode" ∧ r.crf_use = some "18" ∧
        r.preset_use = some "slow" ∧ r.abr_use = some "320k") ∧
     (let r := resolve_policy "ultra" "auto" "mp4" none none (some "16") none none (some "h264") (some "aac")
      r.crf_use = some "16" ∧ r.preset_use = some "slow" ∧ r.abr_use = some "320k")) :=
  ⟨by decide,
   ultra_defaults_and_independent_override "auto" "mp4" (some "h264") (some "aac") "16" (by decide)⟩

/-- C3: for quality preset "auto", a compatible probe yields remux; an
incompatible probe yields transcode with the container default codecs,
CRF 20, preset "fast" and audio bitrate "192k"; and for probed h264/aac
targeting webm the compatibility check returns false, with webm defaults
libvpx-vp9 / libopus. -/
theorem auto_mode_decision (mode_arg out_ext : String) (probed_v probed_a : Option String) :
    (container_allows_codecs out_ext probed_v probed_a = true →
       (resolve_policy "auto" mode_arg out_ext none none none none none probed_v
          probed_a).effective_mode = "remux") ∧
    (container_allows_codecs out_ext probed_v probed_a = false →
       resolve_policy "auto" mode_arg out_ext none none none none none probed_v probed_a =
         ⟨"transcode", some (VCODEC_DEFAULTS_get out_ext), some (ACODEC_DEFAULTS_get out_ext),
          some "20", some "fast", some "192k"⟩) ∧
    container_allows_codecs "webm" (some "h264") (some "aac") = false ∧
    VCODEC_DEFAULTS_get "webm" = "libvpx-vp9" ∧ ACODEC_DEFAULTS_get "webm" = "libopus" := by
  refine ⟨?_, ?_, by decide, rfl, rfl⟩
  · intro h
    simp [resolve_policy, h]
  · intro h
    simp [resolve_policy, h, py_or]

/-- Closed witness for `auto_mode_decision`: h264/aac into webm resolves to
transcode with the webm defaults and the auto-tier quality values. -/
theorem auto_mode_decision_witness :
    container_allows_codecs "webm" (some "h264") (some "aac") = false ∧
      resolve_policy "auto" "auto" "webm" none none none none none (some "h264") (some "aac") =
        ⟨"transcode", some (VCODEC_DEFAULTS_get "webm"), some (ACODEC_DEFAULTS_get "webm"),
         some "20", some "fast", some "192k"⟩ :=
  ⟨by decide, (auto_mode_decision "auto" "webm" (some "h264") (some "aac")).2.1 (by decide)⟩

/-- C1, counterexample: with quality "custom" and no `--vcodec`, the resolved
video codec is NOT the container default for webm (`libvpx-vp9`); it stays
unresolved, so no fallback to the container-specific default happens. -/
theorem custom_no_codec_fallback_counterexample :
    (resolve_policy "custom" "transcode" "webm" none none none none none
        (some "h264") (some "aac")).vcodec_use ≠ some (VCODEC_DEFAULTS_get "webm") ∧
    (resolve_policy "custom" "transcode" "webm" none none none none none
        (some "h264") (some "aac")).vcodec_use = none := by
  decide

/-- C1, amended: for quality preset "custom" the operating mode is taken
verbatim from the user-supplied `--mode` value, and every codec/CRF/preset/
bitrate value is passed through exactly as supplied — an unspecified codec
stays unspecified (no fallback to the container default). -/
theorem custom_mode_verbatim_no_fallback (mode_arg out_ext : String)
    (vcodec_arg acodec_arg crf_arg preset_arg abr_arg probed_v probed_a : Option String) :
    resolve_policy "custom" mode_arg out_ext vcodec_arg acodec_arg crf_arg preset_arg abr_arg
        probed_v probed_a =
      ⟨mode_arg, vcodec_arg, acodec_arg, crf_arg, preset_arg, abr_arg⟩ := by
  rfl


/-! ### Helpers for reasoning about membership in built commands

`build_ffmpeg_cmd` splices user-supplied strings (paths, codec names, rates)
into the argument list.  A value that does not begin with a dash can never
coincide with one of the fixed ffmpeg flag tokens. -/

/-- The string does not begin with `-` (true of codec names, rates, resolved
paths, and of `""`). -/
def dashFree (s : String) : Bool := !(s.data.headD ' ' == '-')

/-- `dashFree` lifted to optional values; `none` is trivially dash-free. -/
def optDashFree : Option String → Bool
  | none => true
  | some s => dashFree s

lemma dashFree_ne {s t : String} (hs : dashFree s = true) (ht : dashFree t = false) :
    s ≠ t := by
  intro h
  rw [h] at hs
  rw [hs] at ht
  exact Bool.noConfusion ht

lemma orEmpty_dashFree {v : Option String} (h : optDashFree v = true) :
    dashFree (orEmpty v) = true := by
  cases v
  · decide
  · exact h

/-- The remux branch of the builder, spelled out (holds by computation). -/
lemma build_remux_eq (src dst : String)
    (vcodec acodec crf preset video_bitrate maxrate bufsize audio_bitrate scale : Option String)
    (deint : Bool) (extra_filters : Option String) (copy_subs no_subs : Bool)
    (burn_subs : Option String) (threads : Option Int) (overwrite : Bool) :
    build_ffmpeg_cmd src dst "remux" vcodec acodec crf preset video_bitrate maxrate bufsize
        audio_bitrate scale deint extra_filters copy_subs no_subs burn_subs threads overwrite =
      cmd_base overwrite src ++ subtitle_args copy_subs no_subs ++
        ["-c", "copy"] ++ default_container_flags (out_container dst) ++ [dst] := rfl

/-- The transcode branch of the builder, spelled out (holds by computation). -/
lemma build_transcode_eq (src dst : String)
    (vcodec acodec crf preset video_bitrate maxrate bufsize audio_bitrate scale : Option String)
    (deint : Bool) (extra_filters : Option String) (copy_subs no_subs : Bool)
    (burn_subs : Option String) (threads : Option Int) (overwrite : Bool) :
    build_ffmpeg_cmd src dst "transcode" vcodec acodec crf preset video_bitrate maxrate bufsize
        audio_bitrate scale deint extra_filters copy_subs no_subs burn_subs threads overwrite =
      cmd_base overwrite src ++ subtitle_args copy_subs no_subs ++
        video_args vcodec crf preset video_bitrate maxrate bufsize ++
        audio_args acodec audio_bitrate ++
        (if (vf_chain scale deint extra_filters burn_subs).isEmpty then []
         else ["-vf", joinComma (vf_chain scale deint extra_filters burn_subs)]) ++
        default_container_flags (out_container dst) ++ thread_args threads ++ [dst] := rfl

lemma not_mem_cmd_base {x : String} (ow : Bool) {src : String}
    (h1 : x ≠ "ffmpeg") (h2 : x ≠ "-hide_banner") (h3 : x ≠ "-loglevel") (h4 : x ≠ "info")
    (h5 : x ≠ "-y") (h6 : x ≠ "-n") (h7 : x ≠ "-i") (h8 : x ≠ src) :
    x ∉ cmd_base ow src := by
  unfold cmd_base
  cases ow <;> simp_all

lemma not_mem_subtitle_args {x : String} (cs ns : Bool)
    (h1 : x ≠ "-sn") (h2 : x ≠ "-c:s") (h3 : x ≠ "copy") :
    x ∉ subtitle_args cs ns := by
  unfold subtitle_args
  split_ifs <;> simp_all

lemma not_mem_default_container_flags {x : String} (c : String)
    (h1 : x ≠ "-movflags") (h2 : x ≠ "+faststart") (h3 : x ≠ "-pix_fmt") (h4 : x ≠ "yuv420p") :
    x ∉ default_container_flags c := by
  simp only [default_container_flags]
  split_ifs <;> simp_all

/-- The codec/quality arguments that must never appear in a remux command. -/
def REMUX_BANNED : List String :=
  ["-c:v", "-c:a", "-crf", "-preset", "-b:v", "-b:a", "-maxrate", "-bufsize"]

/-- C4: for every combination of resolved parameters, when mode is "remux" the
built command contains the stream-copy instruction `-c copy` followed by the
container-specific finalization flags for the destination, and contains none of
`-c:v`, `-c:a`, `-crf`, `-preset`, `-b:v`, `-b:a`, `-maxrate`, `-bufsize`
(the source/destination paths are assumed not to be spelled like one of those
flag tokens). -/
theorem remux_stream_copy_only (src dst : String)
    (vcodec acodec crf preset video_bitrate maxrate bufsize audio_bitrate scale : Option String)
    (deint : Bool) (extra_filters : Option String) (copy_subs no_subs : Bool)
    (burn_subs : Option String) (threads : Option Int) (overwrite : Bool)
    (hsrc : src ∉ REMUX_BANNED) (hdst : dst ∉ REMUX_BANNED) :
    (["-c", "copy"] ++ default_container_flags (out_container dst) ++ [dst]) <:+:
      build_ffmpeg_cmd src dst "remux" vcodec acodec crf preset video_bitrate maxrate bufsize
        audio_bitrate scale deint extra_filters copy_subs no_subs burn_subs threads overwrite ∧
    ∀ x ∈ REMUX_BANNED,
      x ∉ build_ffmpeg_cmd src dst "remux" vcodec acodec crf preset video_bitrate maxrate bufsize
        audio_bitrate scale deint extra_filters copy_subs no_subs burn_subs threads overwrite := by
  constructor
  · exact List.IsSuffix.isInfix
      ⟨cmd_base overwrite src ++ subtitle_args copy_subs no_subs,
       by rw [build_remux_eq]; simp [List.append_assoc]⟩
  · intro x hx
    have hxsrc : x ≠ src := fun h => hsrc (h ▸ hx)
    have hxdst : x ≠ dst := fun h => hdst (h ▸ hx)
    rw [build_remux_eq]
    have key : ∀ y : String,
        y ∉ ["ffmpeg", "-hide_banner", "-loglevel", "info", "-y", "-n", "-i", "-sn", "-c:s",
             "copy", "-c", "-movflags", "+faststart", "-pix_fmt", "yuv420p"] →
        y ≠ src → y ≠ dst →
        y ∉ cmd_base overwrite src ++ subtitle_args copy_subs no_subs ++ ["-c", "copy"] ++
          default_container_flags (out_container dst) ++ [dst] := by
      intro y hy hysrc hydst
      simp only [List.mem_cons, List.not_mem_nil, or_false, not_or] at hy
      obtain ⟨h1, h2, h3, h4, h5, h6, h7, h8, h9, h10, h11, h12, h13, h14, h15⟩ := hy
      have hp := not_mem_cmd_base overwrite h1 h2 h3 h4 h5 h6 h7 hysrc
      have hs := not_mem_subtitle_args copy_subs no_subs h8 h9 h10
      have hd := not_mem_default_container_flags (out_container dst) h12 h13 h14 h15
      simp [List.mem_append, hp, hs, hd, hydst, h10, h11]
    simp only [REMUX_BANNED, List.mem_cons, List.not_mem_nil, or_false] at hx
    rcases hx with rfl | rfl | rfl | rfl | rfl | rfl | rfl | rfl <;>
      exact key _ (by decide) hxsrc hxdst

/-- Closed witness for `remux_stream_copy_only` on a concrete remux job. -/
theorem remux_stream_copy_only_witness :
    "/in/a.mkv" ∉ REMUX_BANNED ∧ "/out/a.mp4" ∉ REMUX_BANNED ∧
    ((["-c", "copy"] ++ default_container_flags (out_container "/out/a.mp4") ++ ["/out/a.mp4"]) <:+:
       build_ffmpeg_cmd "/in/a.mkv" "/out/a.mp4" "remux" (some "libx264") (some "aac")
         (some "20") (some "fast") (some "5M") (some "6M") (some "10M") (some "192k")
         (some "1280:720") true (some "hqdn3d") false false none (some 4) true ∧
     ∀ x ∈ REMUX_BANNED,
       x ∉ build_ffmpeg_cmd "/in/a.mkv" "/out/a.mp4" "remux" (some "libx264") (some "aac")
         (some "20") (some "fast") (some "5M") (some "6M") (some "10M") (some "192k")
         (some "1280:720") true (some "hqdn3d") false false none (some 4) true) :=
  ⟨by decide, by decide,
   remux_stream_copy_only "/in/a.mkv" "/out/a.mp4" (some "libx264") (some "aac")
     (some "20") (some "fast") (some "5M") (some "6M") (some "10M") (some "192k")
     (some "1280:720") true (some "hqdn3d") false false none (some 4) true
     (by decide) (by decide)⟩

/-- C10: for every call of `build_ffmpeg_cmd` with mode "remux" the result
contains no `-vf` argument — deinterlace, scale, user filters and subtitle
burn-in are all silently dropped, even when a burn-subs path is supplied
(the paths are assumed not to be the literal string `-vf`). -/
theorem remux_has_no_vf (src dst : String)
    (vcodec acodec crf preset video_bitrate maxrate bufsize audio_bitrate scale : Option String)
    (deint : Bool) (extra_filters : Option String) (copy_subs no_subs : Bool)
    (burn_subs : Option String) (threads : Option Int) (overwrite : Bool)
    (hsrc : src ≠ "-vf") (hdst : dst ≠ "-vf") :
    "-vf" ∉ build_ffmpeg_cmd src dst "remux" vcodec acodec crf preset video_bitrate maxrate
      bufsize audio_bitrate scale deint extra_filters copy_subs no_subs burn_subs threads
      overwrite := by
  rw [build_remux_eq]
  have hp := not_mem_cmd_base (x := "-vf") overwrite (by decide) (by decide) (by decide)
    (by decide) (by decide) (by decide) (by decide) (Ne.symm hsrc)
  have hs := not_mem_subtitle_args (x := "-vf") copy_subs no_subs (by decide) (by decide)
    (by decide)
  have hd := not_mem_default_container_flags (x := "-vf") (out_container dst) (by decide)
    (by decide) (by decide) (by decide)
  simp [List.mem_append, hp, hs, hd, Ne.symm hdst]

/-- Closed witness for `remux_has_no_vf`: a remux job with deinterlace, scale,
user filters and a burn-subs path still emits no `-vf`. -/
theorem remux_has_no_vf_witness :
    "/in/a.mkv" ≠ "-vf" ∧ "/out/a.mp4" ≠ "-vf" ∧
    "-vf" ∉ build_ffmpeg_cmd "/in/a.mkv" "/out/a.mp4" "remux" none none none none none none
      none none (some "1280:720") true (some "hqdn3d") false false (some "/s/x.srt") none true :=
  ⟨by decide, by decide,
   remux_has_no_vf "/in/a.mkv" "/out/a.mp4" none none none none none none none none
     (some "1280:720") true (some "hqdn3d") false false (some "/s/x.srt") none true
     (by decide) (by decide)⟩


/-- C7: in transcode mode the video filter chain is emitted as a single `-vf`
argument whose value is the comma-join of, in this fixed order: the
deinterlace filter `yadif`, then `scale=...`, then the user filter string,
then the subtitle burn-in filter, whose path has every backslash doubled and
then every colon escaped with a backslash (`escape_subs_path`). -/
theorem vf_chain_order_and_escaping (src dst : String)
    (vcodec acodec crf preset video_bitrate maxrate bufsize audio_bitrate : Option String)
    (s f p : String) (copy_subs no_subs : Bool) (threads : Option Int) (overwrite : Bool)
    (hs : s ≠ "") (hf : f ≠ "") :
    ["-vf",
     joinComma ["yadif", "scale=" ++ s, f,
       "subtitles=\x27" ++ escape_subs_path p ++ "\x27"]] <:+:
      build_ffmpeg_cmd src dst "transcode" vcodec acodec crf preset video_bitrate maxrate
        bufsize audio_bitrate (some s) true (some f) copy_subs no_subs (some p) threads
        overwrite := by
  have hchain : vf_chain (some s) true (some f) (some p) =
      ["yadif", "scale=" ++ s, f, "subtitles=\x27" ++ escape_subs_path p ++ "\x27"] := by
    simp [vf_chain, truthy, orEmpty, hs, hf]
  refine ⟨cmd_base overwrite src ++ subtitle_args copy_subs no_subs ++
      video_args vcodec crf preset video_bitrate maxrate bufsize ++
      audio_args acodec audio_bitrate,
    default_container_flags (out_container dst) ++ thread_args threads ++ [dst], ?_⟩
  rw [build_transcode_eq, hchain]
  simp [List.append_assoc]

/-- Closed witness for `vf_chain_order_and_escaping` with a Windows-style
subtitle path, showing the escaped value concretely. -/
theorem vf_chain_order_and_escaping_witness :
    "1280:720" ≠ "" ∧ "hqdn3d" ≠ "" ∧
    ["-vf", "yadif,scale=1280:720,hqdn3d,subtitles=\x27C\\:\\\\subs\\\\a.srt\x27"] <:+:
      build_ffmpeg_cmd "/in/a.mkv" "/out/a.mp4" "transcode" (some "libx264") (some "aac")
        (some "18") (some "slow") none none none (some "320k") (some "1280:720") true
        (some "hqdn3d") false false (some "C:\\subs\\a.srt") (some 4) true := by
  refine ⟨by decide, by decide, ?_⟩
  have h := vf_chain_order_and_escaping "/in/a.mkv" "/out/a.mp4" (some "libx264") (some "aac")
    (some "18") (some "slow") none none none (some "320k") "1280:720" "hqdn3d"
    "C:\\subs\\a.srt" false false (some 4) true (by decide) (by decide)
  have he : joinComma ["yadif", "scale=" ++ "1280:720", "hqdn3d",
      "subtitles=\x27" ++ escape_subs_path "C:\\subs\\a.srt" ++ "\x27"] =
      "yadif,scale=1280:720,hqdn3d,subtitles=\x27C\\:\\\\subs\\\\a.srt\x27" := by decide
  rw [he] at h
  exact h


lemma dashFree_append (x r : String) (hx : x ≠ "") : dashFree (x ++ r) = dashFree x := by
  have hd : (x ++ r).data = x.data ++ r.data := rfl
  unfold dashFree
  rw [hd]
  cases he : x.data with
  | nil => exact absurd (String.ext he) hx
  | cons c cs => simp [he]

lemma lit_append_ne_empty (a z : String) (ha : a ≠ "") : a ++ z ≠ "" := by
  intro hcon
  have hd : a.data ++ z.data = ([] : List Char) := congrArg String.data hcon
  rcases List.append_eq_nil.mp hd with ⟨h1, _⟩
  exact ha (String.ext h1)

lemma orEmpty_ne_of_truthy {v : Option String} (h : truthy v = true) : orEmpty v ≠ "" := by
  cases v with
  | none => simp [truthy] at h
  | some s => simpa [truthy, orEmpty] using h

lemma joinComma_dashFree : ∀ l : List String,
    (∀ y ∈ l, dashFree y = true ∧ y ≠ "") → l ≠ [] → dashFree (joinComma l) = true
  | [], _, hne => absurd rfl hne
  | [x], h, _ => (h x (by simp)).1
  | x :: y :: t, h, _ => by
    have hx := h x (by simp)
    show dashFree (x ++ "," ++ joinComma (y :: t)) = true
    rw [dashFree_append (x ++ ",") _ (lit_append_ne_empty x "," hx.2),
        dashFree_append x "," hx.2]
    exact hx.1

lemma vf_chain_dashFree (scale : Option String) (deint : Bool) (ef bsub : Option String)
    (hef : optDashFree ef = true) :
    ∀ y ∈ vf_chain scale deint ef bsub, dashFree y = true ∧ y ≠ "" := by
  intro y hy
  unfold vf_chain at hy
  simp only [List.mem_append] at hy
  rcases hy with ((h | h) | h) | h
  · cases deint
    · simp at h
    · simp only [if_pos] at h
      simp at h
      subst h
      exact ⟨rfl, by decide⟩
  · by_cases ht : truthy scale = true
    · rw [if_pos ht] at h
      simp at h
      subst h
      exact ⟨rfl, lit_append_ne_empty "scale=" _ (by decide)⟩
    · rw [if_neg ht] at h
      simp at h
  · by_cases ht : truthy ef = true
    · rw [if_pos ht] at h
      simp at h
      subst h
      cases ef with
      | none => simp [truthy] at ht
      | some s => exact ⟨hef, orEmpty_ne_of_truthy ht⟩
    · rw [if_neg ht] at h
      simp at h
  · cases bsub with
    | none => simp at h
    | some p =>
      simp at h
      subst h
      exact ⟨rfl, lit_append_ne_empty _ _ (lit_append_ne_empty "subtitles=\x27" _ (by decide))⟩

lemma not_mem_vf_args {x : String} (scale : Option String) (deint : Bool)
    (ef bsub : Option String) (hx : dashFree x = false) (h1 : x ≠ "-vf")
    (hef : optDashFree ef = true) :
    x ∉ (if (vf_chain scale deint ef bsub).isEmpty then []
         else ["-vf", joinComma (vf_chain scale deint ef bsub)]) := by
  split_ifs with h
  · simp
  · have hne : vf_chain scale deint ef bsub ≠ [] := by
      intro hcon
      rw [hcon] at h
      simp at h
    have hj := joinComma_dashFree _ (vf_chain_dashFree scale deint ef bsub hef) hne
    simp [h1, Ne.symm (dashFree_ne hj hx)]

lemma not_mem_audio_args {x : String} (acodec ab : Option String)
    (hx : dashFree x = false) (h1 : x ≠ "-c:a") (h2 : x ≠ "-b:a")
    (ha : optDashFree acodec = true) (hab : optDashFree ab = true) :
    x ∉ audio_args acodec ab := by
  have na : x ≠ orEmpty acodec := Ne.symm (dashFree_ne (orEmpty_dashFree ha) hx)
  have nb : x ≠ orEmpty ab := Ne.symm (dashFree_ne (orEmpty_dashFree hab) hx)
  unfold audio_args
  split_ifs <;> simp_all

lemma not_mem_thread_args {x : String} (threads : Option Int)
    (hx : dashFree x = false) (h1 : x ≠ "-threads")
    (hth : optDashFree (threads.map toString) = true) :
    x ∉ thread_args threads := by
  unfold thread_args
  cases threads with
  | none => simp
  | some t =>
    have hnt : x ≠ toString t :=
      Ne.symm (dashFree_ne (show dashFree (toString t) = true from hth) hx)
    show x ∉ (if (t == 0) = true then [] else ["-threads", toString t])
    split_ifs <;> simp_all

lemma video_args_flags (vcodec crf preset vb mr bs : Option String)
    (hv : optDashFree vcodec = true) (hc : optDashFree crf = true)
    (hp : optDashFree preset = true) (hvb : optDashFree vb = true)
    (hmr : optDashFree mr = true) (hbs : optDashFree bs = true) :
    (("-crf" ∈ video_args vcodec crf preset vb mr bs) ↔
       (truthy crf && !truthy vb && in_crf_set vcodec) = true) ∧
    (("-preset" ∈ video_args vcodec crf preset vb mr bs) ↔
       (truthy preset && in_crf_set vcodec) = true) ∧
    (("-b:v" ∈ video_args vcodec crf preset vb mr bs) ↔
       (truthy vb && truthy vcodec) = true) ∧
    (("-maxrate" ∈ video_args vcodec crf preset vb mr bs) ↔
       (truthy mr && truthy vcodec) = true) ∧
    (("-bufsize" ∈ video_args vcodec crf preset vb mr bs) ↔
       (truthy bs && truthy vcodec) = true) := by
  have hfacts : ∀ x : String, dashFree x = false →
      x ≠ orEmpty vcodec ∧ x ≠ orEmpty crf ∧ x ≠ orEmpty preset ∧ x ≠ orEmpty vb ∧
        x ≠ orEmpty mr ∧ x ≠ orEmpty bs := fun x hx =>
    ⟨Ne.symm (dashFree_ne (orEmpty_dashFree hv) hx),
     Ne.symm (dashFree_ne (orEmpty_dashFree hc) hx),
     Ne.symm (dashFree_ne (orEmpty_dashFree hp) hx),
     Ne.symm (dashFree_ne (orEmpty_dashFree hvb) hx),
     Ne.symm (dashFree_ne (orEmpty_dashFree hmr) hx),
     Ne.symm (dashFree_ne (orEmpty_dashFree hbs) hx)⟩
  obtain ⟨a1, a2, a3, a4, a5, a6⟩ := hfacts "-crf" (by decide)
  obtain ⟨b1, b2, b3, b4, b5, b6⟩ := hfacts "-preset" (by decide)
  obtain ⟨c1, c2, c3, c4, c5, c6⟩ := hfacts "-b:v" (by decide)
  obtain ⟨d1, d2, d3, d4, d5, d6⟩ := hfacts "-maxrate" (by decide)
  obtain ⟨e1, e2, e3, e4, e5, e6⟩ := hfacts "-bufsize" (by decide)
  have htr : ∀ v : Option String, in_crf_set v = true → truthy v = true := by
    intro v hin
    cases v with
    | none => simp [in_crf_set] at hin
    | some s =>
      have hmem : s ∈ CRF_CODECS :=
        List.mem_of_elem_eq_true (show List.elem s CRF_CODECS = true from hin)
      simp only [CRF_CODECS, List.mem_cons, List.not_mem_nil, or_false] at hmem
      rcases hmem with rfl | rfl | rfl | rfl <;> decide
  have htr2 : ∀ v : Option String, truthy v = false → in_crf_set v = false := by
    intro v hv2
    cases hcs : in_crf_set v
    · rfl
    · rw [htr v hcs] at hv2
      exact Bool.noConfusion hv2
  clear hfacts
  unfold video_args
  split_ifs <;> simp_all


/-- C2, counterexample: with the webm default codec `libvpx-vp9` and an
explicit encoder preset supplied ("fast" is provided, i.e. truthy), the
transcode command contains no `-preset` argument — refuting "encoder preset
arguments are emitted whenever their values are provided". -/
theorem preset_dropped_for_non_crf_codec :
    truthy (some "fast") = true ∧
    "-preset" ∉ build_ffmpeg_cmd "/in/a.mkv" "/out/a.webm" "transcode" (some "libvpx-vp9")
      (some "libopus") (some "20") (some "fast") none none none (some "192k") none false none
      false false none none false := by decide

/-- C2, amended: in transcode mode (with none of the spliced-in strings
spelled like a dash-led flag token), `-crf` appears iff a CRF value is
provided, no explicit video bitrate is given, and the resolved video codec is
in the CRF-capable set {libx264, libx265, h264_nvenc, hevc_nvenc}; `-preset`
appears iff a preset is provided AND the codec is in that same set; `-b:v`,
`-maxrate`, `-bufsize` appear iff their value is provided and a video codec is
set.  The webm default codec `libvpx-vp9` is not in the CRF-capable set, so a
webm transcode using it gets neither `-crf` nor `-preset`. -/
theorem transcode_flag_emission (src dst : String)
    (vcodec acodec crf preset video_bitrate maxrate bufsize audio_bitrate scale : Option String)
    (deint : Bool) (extra_filters : Option String) (copy_subs no_subs : Bool)
    (burn_subs : Option String) (threads : Option Int) (overwrite : Bool)
    (hsrc : dashFree src = true) (hdst : dashFree dst = true)
    (hv : optDashFree vcodec = true) (ha : optDashFree acodec = true)
    (hc : optDashFree crf = true) (hp : optDashFree preset = true)
    (hvb : optDashFree video_bitrate = true) (hmr : optDashFree maxrate = true)
    (hbs : optDashFree bufsize = true) (hab : optDashFree audio_bitrate = true)
    (hef : optDashFree extra_filters = true)
    (hth : optDashFree (threads.map toString) = true) :
    (("-crf" ∈ build_ffmpeg_cmd src dst "transcode" vcodec acodec crf preset video_bitrate
        maxrate bufsize audio_bitrate scale deint extra_filters copy_subs no_subs burn_subs
        threads overwrite) ↔
       (truthy crf && !truthy video_bitrate && in_crf_set vcodec) = true) ∧
    (("-preset" ∈ build_ffmpeg_cmd src dst "transcode" vcodec acodec crf preset video_bitrate
        maxrate bufsize audio_bitrate scale deint extra_filters copy_subs no_subs burn_subs
        threads overwrite) ↔
       (truthy preset && in_crf_set vcodec) = true) ∧
    (("-b:v" ∈ build_ffmpeg_cmd src dst "transcode" vcodec acodec crf preset video_bitrate
        maxrate bufsize audio_bitrate scale deint extra_filters copy_subs no_subs burn_subs
        threads overwrite) ↔
       (truthy video_bitrate && truthy vcodec) = true) ∧
    (("-maxrate" ∈ build_ffmpeg_cmd src dst "transcode" vcodec acodec crf preset video_bitrate
        maxrate bufsize audio_bitrate scale deint extra_filters copy_subs no_subs burn_subs
        threads overwrite) ↔
       (truthy maxrate && truthy vcodec) = true) ∧
    (("-bufsize" ∈ build_ffmpeg_cmd src dst "transcode" vcodec acodec crf preset video_bitrate
        maxrate bufsize audio_bitrate scale deint extra_filters copy_subs no_subs burn_subs
        threads overwrite) ↔
       (truthy bufsize && truthy vcodec) = true) ∧
    in_crf_set (some (VCODEC_DEFAULTS_get "webm")) = false := by
  have main : ∀ x : String, dashFree x = false →
      x ∉ ["ffmpeg", "-hide_banner", "-loglevel", "info", "-y", "-n", "-i", "-sn", "-c:s",
           "copy", "-c:a", "-b:a", "-vf", "-movflags", "+faststart", "-pix_fmt", "yuv420p",
           "-threads"] →
      ((x ∈ build_ffmpeg_cmd src dst "transcode" vcodec acodec crf preset video_bitrate
          maxrate bufsize audio_bitrate scale deint extra_filters copy_subs no_subs burn_subs
          threads overwrite) ↔
        x ∈ video_args vcodec crf preset video_bitrate maxrate bufsize) := by
    intro x hx hnx
    simp only [List.mem_cons, List.not_mem_nil, or_false, not_or] at hnx
    obtain ⟨n1, n2, n3, n4, n5, n6, n7, n8, n9, n10, n11, n12, n13, n14, n15, n16, n17, n18⟩ :=
      hnx
    have hxsrc : x ≠ src := Ne.symm (dashFree_ne hsrc hx)
    have hxdst : x ≠ dst := Ne.symm (dashFree_ne hdst hx)
    rw [build_transcode_eq]
    have e1 := not_mem_cmd_base overwrite n1 n2 n3 n4 n5 n6 n7 hxsrc
    have e2 := not_mem_subtitle_args copy_subs no_subs n8 n9 n10
    have e3 := not_mem_audio_args acodec audio_bitrate hx n11 n12 ha hab
    have e4 := not_mem_vf_args scale deint extra_filters burn_subs hx n13 hef
    have e5 := not_mem_default_container_flags (out_container dst) n14 n15 n16 n17
    have e6 := not_mem_thread_args threads hx n18 hth
    simp [List.mem_append, e1, e2, e3, e4, e5, e6, hxdst]
    intro hne hor
    exfalso
    apply e4
    rw [if_neg (by simp [hne])]
    simpa using hor
  obtain ⟨w1, w2, w3, w4, w5⟩ :=
    video_args_flags vcodec crf preset video_bitrate maxrate bufsize hv hc hp hvb hmr hbs
  refine ⟨?_, ?_, ?_, ?_, ?_, by decide⟩
  · rw [main "-crf" (by decide) (by decide)]
    exact w1
  · rw [main "-preset" (by decide) (by decide)]
    exact w2
  · rw [main "-b:v" (by decide) (by decide)]
    exact w3
  · rw [main "-maxrate" (by decide) (by decide)]
    exact w4
  · rw [main "-bufsize" (by decide) (by decide)]
    exact w5

/-- Closed witness for `transcode_flag_emission` on a concrete webm transcode
job with the default codec `libvpx-vp9`, CRF, preset and audio bitrate all
provided and no video bitrate: neither `-crf` nor `-preset` is emitted. -/
theorem transcode_flag_emission_witness :
    dashFree "/in/a.mkv" = true ∧ dashFree "/out/a.webm" = true ∧
    optDashFree (some "libvpx-vp9") = true ∧ optDashFree (some "libopus") = true ∧
    optDashFree (some "20") = true ∧ optDashFree (some "fast") = true ∧
    (("-crf" ∈ build_ffmpeg_cmd "/in/a.mkv" "/out/a.webm" "transcode" (some "libvpx-vp9")
        (some "libopus") (some "20") (some "fast") none none none (some "192k") none false
        none false false none none false) ↔
       (truthy (some "20") && !truthy none && in_crf_set (some "libvpx-vp9")) = true) ∧
    (("-preset" ∈ build_ffmpeg_cmd "/in/a.mkv" "/out/a.webm" "transcode" (some "libvpx-vp9")
        (some "libopus") (some "20") (some "fast") none none none (some "192k") none false
        none false false none none false) ↔
       (truthy (some "fast") && in_crf_set (some "libvpx-vp9")) = true) :=
  ⟨by decide, by decide, by decide, by decide, by decide, by decide,
   ((transcode_flag_emission "/in/a.mkv" "/out/a.webm" (some "libvpx-vp9") (some "libopus")
       (some "20") (some "fast") none none none (some "192k") none false none false false
       none none false (by decide) (by decide) (by decide) (by decide) (by decide) (by decide)
       (by decide) (by decide) (by decide) (by decide) (by decide) (by decide))).1,
   ((transcode_flag_emission "/in/a.mkv" "/out/a.webm" (some "libvpx-vp9") (some "libopus")
       (some "20") (some "fast") none none none (some "192k") none false none false false
       none none false (by decide) (by decide) (by decide) (by decide) (by decide) (by decide)
       (by decide) (by decide) (by decide) (by decide) (by decide) (by decide))).2.1⟩

end UniversalTranscoder
